import Mathlib

/-!
A shallow embedding of the hattivatti/pyvatti job-orchestration daemon,
covering the job state machine (pgsjob.py), the Google resource handler
(resources.py), the sqlite job store (db.py), the notification models
(notifymodels.py) and the bus producer loop (main.py).

Machine state, cloud state and the notify queue are threaded explicitly;
Python exceptions are modelled by an `Option Err` component carried next to
the mutated state (objects mutated before a raise keep their mutations).
-/

namespace Hattivatti

/-- Job states (jobstates.py `States`). -/
inductive States
  | REQUESTED
  | CREATED
  | DEPLOYED
  | FAILED
  | SUCCEEDED
  deriving DecidableEq, Repr

/-- The string value of each enum member exactly as written in jobstates.py
(`REQUESTED = "requested"` and so on: lower-case). -/
def States.value : States → String
  | .REQUESTED => "requested"
  | .CREATED => "created"
  | .DEPLOYED => "deployed"
  | .FAILED => "failed"
  | .SUCCEEDED => "succeeded"

/-- The CHECK-constraint set of the jobs table schema in
db.py `SqliteJobDatabase.create` (title-case). -/
def schemaAllowedStates : List String :=
  ["Requested", "Created", "Deployed", "Failed", "Succeeded"]

/-- Whether a bound state string satisfies the schema CHECK constraint. -/
def checkConstraintOk (s : String) : Bool := s ∈ schemaAllowedStates

/-- Error kinds, one per distinguishable Python exception class raised by the
code paths modelled here. -/
inductive Err
  | machineError   -- transitions.core.MachineError
  | fileExists     -- FileExistsError (make_buckets on a pre-existing bucket)
  | valueError     -- ValueError (helm install/uninstall failure, missing job request)
  | typeError      -- TypeError (notify without a queue kwarg)
  | notFound       -- google.cloud NotFound (client.get_bucket on a missing bucket)
  | integrityError -- sqlite3.IntegrityError (primary-key conflict)
  | kafkaError     -- kafka.errors.KafkaError
  | indexError     -- IndexError (json["workflows"][0] on an empty list)
  | fuel           -- out of fuel for nested trigger recursion (never hit with fuel >= 3)
  deriving DecidableEq, Repr

/-- State-machine triggers (pgsjob.py transition table). -/
inductive Trigger
  | create
  | deploy
  | succeed
  | error
  deriving DecidableEq, Repr

/-- Hook names dispatched by the machine (pgsjob.py callback methods). -/
inductive Hook
  | create_resources
  | destroy_resources
  | notify
  deriving DecidableEq, Repr

/-- One entry of `PolygenicScoreJob.transitions`. -/
structure Transition where
  trigger : Trigger
  source : States
  dest : States
  prepare : List Hook
  after : List Hook
  deriving DecidableEq, Repr

/-- The transition table, literally from pgsjob.py `PolygenicScoreJob.transitions`. -/
def transitions : List Transition :=
  [ { trigger := .create, source := .REQUESTED, dest := .CREATED,
      prepare := [.create_resources], after := [] },
    { trigger := .deploy, source := .CREATED, dest := .DEPLOYED,
      prepare := [], after := [.notify] },
    { trigger := .succeed, source := .DEPLOYED, dest := .SUCCEEDED,
      prepare := [], after := [.notify, .destroy_resources] },
    { trigger := .error, source := .REQUESTED, dest := .FAILED,
      prepare := [], after := [.notify, .destroy_resources] },
    { trigger := .error, source := .CREATED, dest := .FAILED,
      prepare := [], after := [.notify, .destroy_resources] },
    { trigger := .error, source := .DEPLOYED, dest := .FAILED,
      prepare := [], after := [.notify, .destroy_resources] } ]

/-- The transition (if any) a trigger takes from a state: first table entry whose
trigger and source match, as the transitions library selects it. -/
def transFor (t : Trigger) (s : States) : Option Transition :=
  transitions.find? (fun tr => tr.trigger == t && tr.source == s)

/-- ASCII lower-casing of one character, as Python str.lower acts on the
ASCII job ids (`INTP…`) this code handles. -/
def lowerChar (c : Char) : Char :=
  if 'A' ≤ c ∧ c ≤ 'Z' then Char.ofNat (c.toNat + 32) else c

/-- Python str.lower restricted to ASCII strings. -/
def pyLower (s : String) : String := ⟨s.data.map lowerChar⟩

/-- The part of a launch message the resource handler consumes. -/
structure PipelineParam where
  id : String
  deriving DecidableEq, Repr

/-- A validated job-request message (messagemodels.py), restricted to the
fields read by the code modelled here. -/
structure JobRequest where
  pipeline_param : PipelineParam
  deriving DecidableEq, Repr

/-- Fields of resources.py `GoogleResourceHandler` relevant to its behaviour.
`intp_id` is lower-cased on construction; `namespaceValue` is
settings.NAMESPACE.value. -/
structure GoogleResourceHandler where
  intp_id : String
  namespaceValue : String
  work_bucket_existed_on_create : Bool
  results_bucket_existed_on_create : Bool
  helm_installed : Bool
  deriving DecidableEq, Repr

/-- `GoogleResourceHandler.__init__`. -/
def mkGoogleResourceHandler (intp_id namespaceValue : String) : GoogleResourceHandler :=
  { intp_id := pyLower intp_id
    namespaceValue := namespaceValue
    work_bucket_existed_on_create := false
    results_bucket_existed_on_create := false
    helm_installed := false }

/-- `self._bucket_root`. -/
def bucket_root (h : GoogleResourceHandler) : String :=
  h.namespaceValue ++ "-" ++ h.intp_id

/-- `self._work_bucket`. -/
def work_bucket (h : GoogleResourceHandler) : String := bucket_root h ++ "-work"

/-- `self._results_bucket`. -/
def results_bucket (h : GoogleResourceHandler) : String := bucket_root h ++ "-results"

/-- External cloud and cluster state visible to the handler: which buckets
exist, which chart releases are installed, and whether the helm subprocesses
exit 0. -/
structure Cloud where
  buckets : List String
  releases : List String
  helmInstallOk : Bool
  helmUninstallOk : Bool
  deriving DecidableEq, Repr

/-- `GoogleResourceHandler._make_work_bucket`: raise FileExistsError (after
recording existed-on-create) when the bucket already exists, else create it
with its lifecycle policies. -/
def make_work_bucket (c : Cloud) (h : GoogleResourceHandler) :
    Cloud × GoogleResourceHandler × Option Err :=
  if work_bucket h ∈ c.buckets then
    (c, { h with work_bucket_existed_on_create := true }, some .fileExists)
  else
    ({ c with buckets := work_bucket h :: c.buckets }, h, none)

/-- `GoogleResourceHandler._make_results_bucket`. -/
def make_results_bucket (c : Cloud) (h : GoogleResourceHandler) :
    Cloud × GoogleResourceHandler × Option Err :=
  if results_bucket h ∈ c.buckets then
    (c, { h with results_bucket_existed_on_create := true }, some .fileExists)
  else
    ({ c with buckets := results_bucket h :: c.buckets }, h, none)

/-- `GoogleResourceHandler.make_buckets`: work bucket first, then results. -/
def make_buckets (c : Cloud) (h : GoogleResourceHandler) :
    Cloud × GoogleResourceHandler × Option Err :=
  match make_work_bucket c h with
  | (c', h', some e) => (c', h', some e)
  | (c', h', none) => make_results_bucket c' h'

/-- resources.py `helm_install`: render the chart values and run the helm
subprocess; a nonzero exit status raises ValueError. -/
def helm_install (c : Cloud) (releaseName : String) : Cloud × Option Err :=
  if c.helmInstallOk then ({ c with releases := releaseName :: c.releases }, none)
  else (c, some .valueError)

/-- resources.py `helm_uninstall` (the release name is lower-cased in the
command); a nonzero exit status raises ValueError. -/
def helm_uninstall (c : Cloud) (releaseName : String) : Cloud × Option Err :=
  if c.helmUninstallOk then
    ({ c with releases := c.releases.erase (pyLower releaseName) }, none)
  else (c, some .valueError)

/-- `GoogleResourceHandler.create_resources`: make the buckets (exceptions
propagate), then try helm_install, catching only ValueError to record
`_helm_installed = False`; on success record True. -/
def handler_create_resources (c : Cloud) (h : GoogleResourceHandler) (jm : JobRequest) :
    Cloud × GoogleResourceHandler × Option Err :=
  match make_buckets c h with
  | (c', h', some e) => (c', h', some e)
  | (c', h', none) =>
      match helm_install c' (pyLower jm.pipeline_param.id) with
      | (c'', some .valueError) => (c'', { h' with helm_installed := false }, none)
      | (c'', some e) => (c'', h', some e)
      | (c'', none) => (c'', { h' with helm_installed := true }, none)

/-- `GoogleResourceHandler._delete_buckets`: return early when the work bucket
existed on create; `client.get_bucket` raises NotFound when the bucket is
absent (so the following exists() check cannot fire); deleting more than 256
blobs individually before the force-delete has no bucket-level effect, so the
deletion is modelled as removing the bucket. The results bucket is deleted
only when `results` is true, with no check of
`_results_bucket_existed_on_create`. -/
def delete_buckets (c : Cloud) (h : GoogleResourceHandler) (results : Bool) :
    Cloud × Option Err :=
  if h.work_bucket_existed_on_create then (c, none)
  else if work_bucket h ∉ c.buckets then (c, some .notFound)
  else
    let c' := { c with buckets := c.buckets.erase (work_bucket h) }
    if results then
      if results_bucket h ∉ c'.buckets then (c', some .notFound)
      else ({ c' with buckets := c'.buckets.erase (results_bucket h) }, none)
    else (c', none)

/-- `GoogleResourceHandler.destroy_resources`. -/
def handler_destroy_resources (c : Cloud) (h : GoogleResourceHandler) (state : States) :
    Cloud × Option Err :=
  match (if h.helm_installed then helm_uninstall c h.intp_id else (c, none)) with
  | (c', some e) => (c', some e)
  | (c', none) =>
      if state == States.FAILED then delete_buckets c' h true
      else delete_buckets c' h false

/-- notifymodels.py `BackendStatusMessage` (time stamps as abstract Int
clock values). -/
structure BackendStatusMessage where
  run_name : String
  utc_time : Int
  event : States
  trace_name : Option String := none
  trace_exit : Option Int := none
  deriving DecidableEq, Repr

/-- JSON values appearing in a serialised notification. -/
inductive JVal
  | s (v : String)
  | i (v : Int)
  | time (v : Int)
  | null
  deriving DecidableEq, Repr

/-- An optional string field as serialised JSON. -/
def jOptStr : Option String → JVal
  | some v => .s v
  | none => .null

/-- An optional int field as serialised JSON. -/
def jOptInt : Option Int → JVal
  | some v => .i v
  | none => .null

/-- notifymodels.py `BackendStatusMessage.serialize_model`: trace fields only
when the event is the failed state. -/
def serialize_model (m : BackendStatusMessage) : List (String × JVal) :=
  if m.event == States.FAILED then
    [("run_name", .s m.run_name), ("utc_time", .time m.utc_time),
     ("event", .s m.event.value), ("trace_name", jOptStr m.trace_name),
     ("trace_exit", jOptInt m.trace_exit)]
  else
    [("run_name", .s m.run_name), ("utc_time", .time m.utc_time),
     ("event", .s m.event.value)]

/-- The picklable fields of a pgsjob.py `PolygenicScoreJob`: id, state,
handler (with its flags) and the two trace fields. -/
structure PolygenicScoreJob where
  intp_id : String
  state : States
  handler : GoogleResourceHandler
  trace_name : Option String := none
  trace_exit : Option Int := none
  deriving DecidableEq, Repr

/-- `PolygenicScoreJob.__init__` with a Google handler (the non-dry-run
branch); the machine starts in the requested state. -/
def mkPolygenicScoreJob (intp_id namespaceValue : String) : PolygenicScoreJob :=
  { intp_id := intp_id
    state := .REQUESTED
    handler := mkGoogleResourceHandler intp_id namespaceValue }

/-- Keyword arguments of a trigger call, as read by the hooks through
`event.kwargs.get`. `queue` records whether a queue kwarg was supplied. -/
structure Kwargs where
  job_model : Option JobRequest := none
  queue : Bool := false
  deriving DecidableEq, Repr

/-- The full state a trigger call can read and mutate: the job object,
the cloud, the messages put on the notify queue, and the wall clock. -/
structure Ctx where
  job : PolygenicScoreJob
  cloud : Cloud
  sent : List BackendStatusMessage
  now : Int
  deriving DecidableEq, Repr

/-- pgsjob.py `PolygenicScoreJob.create_resources` hook: a missing job_model
kwarg with a Google handler raises ValueError, else delegate to the handler. -/
def hook_create_resources (kw : Kwargs) (ctx : Ctx) : Ctx × Option Err :=
  match kw.job_model with
  | none => (ctx, some .valueError)
  | some jm =>
      match handler_create_resources ctx.cloud ctx.job.handler jm with
      | (c, h, e) => ({ ctx with cloud := c, job := { ctx.job with handler := h } }, e)

/-- pgsjob.py `PolygenicScoreJob.destroy_resources` hook: the state kwarg is
`event.state.value`, the machine's current (post-transition) state. -/
def hook_destroy_resources (ctx : Ctx) : Ctx × Option Err :=
  match handler_destroy_resources ctx.cloud ctx.job.handler ctx.job.state with
  | (c, e) => ({ ctx with cloud := c }, e)

/-- pgsjob.py `PolygenicScoreJob.notify` hook: without a queue kwarg raise
TypeError; else put a `BackendStatusMessage` built from the current state and
trace fields on the queue. -/
def hook_notify (kw : Kwargs) (ctx : Ctx) : Ctx × Option Err :=
  if kw.queue then
    ({ ctx with sent := ctx.sent ++
        [{ run_name := ctx.job.intp_id, utc_time := ctx.now, event := ctx.job.state,
           trace_name := ctx.job.trace_name, trace_exit := ctx.job.trace_exit }] }, none)
  else (ctx, some .typeError)

/-- Dispatch one hook by name. -/
def runHook (h : Hook) (kw : Kwargs) (ctx : Ctx) : Ctx × Option Err :=
  match h with
  | .create_resources => hook_create_resources kw ctx
  | .destroy_resources => hook_destroy_resources ctx
  | .notify => hook_notify kw ctx

/-- Run a hook list in order, stopping at the first exception (mutations made
before the raise are kept). -/
def runHooks : List Hook → Kwargs → Ctx → Ctx × Option Err
  | [], _, ctx => (ctx, none)
  | h :: hs, kw, ctx =>
      match runHook h kw ctx with
      | (ctx', some e) => (ctx', some e)
      | (ctx', none) => runHooks hs kw ctx'

/-- One trigger call, modelling the transitions library's event processing
with `on_exception = handle_error` (pgsjob.py): an invalid trigger raises
MachineError; a legal transition runs its prepare hooks, changes state, then
runs its after hooks; any exception goes to `handle_error`, which re-raises a
MachineError and otherwise fires the error trigger with **no kwargs**
(`self.trigger("error")`). The fuel bounds that nested recursion; 3 always
suffices for this table. -/
def fire : Nat → Trigger → Kwargs → Ctx → Ctx × Option Err
  | 0, _, _, ctx => (ctx, some .fuel)
  | Nat.succ fuel, t, kw, ctx =>
      let handleErr : Err → Ctx → Ctx × Option Err := fun e c =>
        if e = .machineError then (c, some .machineError)
        else fire fuel .error {} c
      match transFor t ctx.job.state with
      | none => handleErr .machineError ctx
      | some tr =>
          match runHooks tr.prepare kw ctx with
          | (ctx', some e) => handleErr e ctx'
          | (ctx', none) =>
              let ctx2 := { ctx' with job := { ctx'.job with state := tr.dest } }
              match runHooks tr.after kw ctx2 with
              | (ctx3, some e) => handleErr e ctx3
              | (ctx3, none) => (ctx3, none)

/-- pgsjob.py `PolygenicScoreJob.handle_error`, as a standalone function
(the same logic is inlined inside `fire`). -/
def handle_error (fuel : Nat) (e : Err) (ctx : Ctx) : Ctx × Option Err :=
  if e = .machineError then (ctx, some .machineError)
  else fire fuel .error {} ctx

/-- The pickled bytes of a `PolygenicScoreJob` (db.py stores
`pickle.dumps(job)` in the job BLOB column), as an explicit flat record of
everything pickle captures from the object graph. -/
structure PickledJob where
  intp_id : String
  stateField : States
  handler_intp_id : String
  handler_namespaceValue : String
  work_existed : Bool
  results_existed : Bool
  helm_installed : Bool
  trace_name : Option String
  trace_exit : Option Int
  deriving DecidableEq, Repr

/-- `pickle.dumps` on a job. -/
def pickle_dumps (j : PolygenicScoreJob) : PickledJob :=
  { intp_id := j.intp_id
    stateField := j.state
    handler_intp_id := j.handler.intp_id
    handler_namespaceValue := j.handler.namespaceValue
    work_existed := j.handler.work_bucket_existed_on_create
    results_existed := j.handler.results_bucket_existed_on_create
    helm_installed := j.handler.helm_installed
    trace_name := j.trace_name
    trace_exit := j.trace_exit }

/-- `pickle.loads` back into a job object. -/
def pickle_loads (b : PickledJob) : PolygenicScoreJob :=
  { intp_id := b.intp_id
    state := b.stateField
    handler :=
      { intp_id := b.handler_intp_id
        namespaceValue := b.handler_namespaceValue
        work_bucket_existed_on_create := b.work_existed
        results_bucket_existed_on_create := b.results_existed
        helm_installed := b.helm_installed }
    trace_name := b.trace_name
    trace_exit := b.trace_exit }

/-- One row of the jobs table (db.py schema). The state column is TEXT;
the value a statement binds for it is discussed at insert_job/update_job. -/
structure DBRow where
  id : String
  job : PickledJob
  state : String
  created_at : Int
  deriving DecidableEq, Repr

/-- db.py `SqliteJobDatabase.insert_job`: INSERT fails on a duplicate primary
key; created_at defaults to the current timestamp. The statement binds
`job.state`, a plain (non-str) enum member that the sqlite3 driver cannot
bind as such; under the most charitable adaptation the bound TEXT is the
enum's string value (States.value, lower-case per jobstates.py), which the
title-case CHECK constraint then rejects — either way the statement raises,
modelled as integrityError. -/
def insert_job (now : Int) (db : List DBRow) (j : PolygenicScoreJob) :
    Except Err (List DBRow) :=
  if db.any (fun r => r.id == j.intp_id) then .error .integrityError
  else if checkConstraintOk j.state.value then
    .ok (db ++ [{ id := j.intp_id, job := pickle_dumps j, state := j.state.value,
                  created_at := now }])
  else .error .integrityError

/-- db.py `SqliteJobDatabase.update_job`: overwrite blob and state where the
id matches (vacuous when the id is absent). As in insert_job, the bound
state value is the enum's lower-case string; whenever a row is actually
updated, the CHECK constraint rejects it and the statement raises. -/
def update_job (db : List DBRow) (j : PolygenicScoreJob) : Except Err (List DBRow) :=
  if db.any (fun r => r.id == j.intp_id) then
    if checkConstraintOk j.state.value then
      .ok (db.map (fun r =>
        if r.id == j.intp_id then
          { r with job := pickle_dumps j, state := j.state.value }
        else r))
    else .error .integrityError
  else .ok db

/-- db.py `SqliteJobDatabase.load_job`: unpickle the blob of the matching row,
or nothing. -/
def load_job (db : List DBRow) (job_id : String) : Option PolygenicScoreJob :=
  (db.find? (fun r => r.id == job_id)).map (fun r => pickle_loads r.job)

/-- The WHERE clause of `timeout_jobs`, comparing the TEXT state column with
the literals of the SQL:
state NOT IN ('Failed', 'Deployed', 'Succeeded') AND created_at <= now - threshold. -/
def timeoutPred (now threshold : Int) (r : DBRow) : Bool :=
  !(r.state == "Failed" || r.state == "Deployed" || r.state == "Succeeded") &&
    decide (r.created_at ≤ now - threshold)

/-- The WHERE clause of `timeout_deployed_jobs`:
state IN ('Deployed') AND created_at <= now - threshold. -/
def deployedTimeoutPred (now threshold : Int) (r : DBRow) : Bool :=
  (r.state == "Deployed") && decide (r.created_at ≤ now - threshold)

/-- The shared loop body of both timeout sweeps: for each selected job, fire
the error trigger passing the notify queue, then persist with update_job. An
exception — from a hook or from update_job itself — propagates out of the
sweep and the remaining jobs are not processed (updates made by earlier
iterations ran in their own connections and persist). -/
def sweep_loop :
    List PolygenicScoreJob → List DBRow → Cloud → List BackendStatusMessage → Int →
      List DBRow × Cloud × List BackendStatusMessage × Option Err
  | [], db, cloud, sent, _ => (db, cloud, sent, none)
  | j :: js, db, cloud, sent, now =>
      match fire 3 .error { queue := true }
          { job := j, cloud := cloud, sent := sent, now := now } with
      | (ctx', some e) => (db, ctx'.cloud, ctx'.sent, some e)
      | (ctx', none) =>
          match update_job db ctx'.job with
          | .error e => (db, ctx'.cloud, ctx'.sent, some e)
          | .ok db' => sweep_loop js db' ctx'.cloud ctx'.sent now

/-- db.py `SqliteJobDatabase.timeout_jobs`: select the overdue non-excluded
rows, load each job, and run the error-and-persist loop. (All selected ids
are present, so each load succeeds.) -/
def timeout_jobs (now threshold : Int) (db : List DBRow) (cloud : Cloud)
    (sent : List BackendStatusMessage) :
    List DBRow × Cloud × List BackendStatusMessage × Option Err :=
  let ids := (db.filter (timeoutPred now threshold)).map (·.id)
  sweep_loop (ids.filterMap (load_job db)) db cloud sent now

/-- db.py `SqliteJobDatabase.timeout_deployed_jobs`: the same loop restricted
to Deployed rows. -/
def timeout_deployed_jobs (now threshold : Int) (db : List DBRow) (cloud : Cloud)
    (sent : List BackendStatusMessage) :
    List DBRow × Cloud × List BackendStatusMessage × Option Err :=
  let ids := (db.filter (deployedTimeoutPred now threshold)).map (·.id)
  sweep_loop (ids.filterMap (load_job db)) db cloud sent now

/-- Whitespace characters stripped by Python str.strip(). -/
def isPyWs (c : Char) : Bool :=
  c = ' ' || c = '\t' || c = '\n' || c = '\r' || c = '\x0b' || c = '\x0c'

/-- Python str.strip() on a character list. -/
def pyStrip (cs : List Char) : List Char :=
  ((cs.dropWhile isPyWs).reverse.dropWhile isPyWs).reverse

/-- Python s.split("\n") on a character list (never returns an empty list). -/
def splitOnNl : List Char → List (List Char)
  | [] => [[]]
  | c :: cs =>
      if c = '\n' then [] :: splitOnNl cs
      else
        match splitOnNl cs with
        | [] => [[c]]
        | l :: ls => (c :: l) :: ls

/-- notifymodels.py `SeqeraLog.trim_error_message` validator:
`message.strip().split("\n")[0]` when the message is present. -/
def trim_error_message : Option (List Char) → Option (List Char)
  | none => none
  | some m => some ((splitOnNl (pyStrip m)).headD [])

/-- Job states on the Seqera platform (notifymodels.py `SeqeraJobStatus`). -/
inductive SeqeraJobStatus
  | SUBMITTED
  | RUNNING
  | SUCCEEDED
  | FAILED
  | UNKNOWN
  deriving DecidableEq, Repr

/-- The fields of one `workflow` JSON object as received from the platform
API, before validation. -/
structure WorkflowFields where
  runName : String
  start : Int
  dateCreated : Int
  status : SeqeraJobStatus
  exitStatus : Option Int := none
  errorReport : Option (List Char) := none
  deriving DecidableEq, Repr

/-- notifymodels.py `SeqeraLog`: a validated workflow record; the
errorReport field went through `trim_error_message`. -/
structure SeqeraLog where
  runName : String
  start : Int
  dateCreated : Int
  status : SeqeraJobStatus
  exitStatus : Option Int
  errorReport : Option (List Char)
  deriving DecidableEq, Repr

/-- Pydantic construction `SeqeraLog(**workflow)`: the after-validator trims
the error report. -/
def mkSeqeraLog (w : WorkflowFields) : SeqeraLog :=
  { runName := w.runName
    start := w.start
    dateCreated := w.dateCreated
    status := w.status
    exitStatus := w.exitStatus
    errorReport := trim_error_message w.errorReport }

/-- The platform API response shape consumed by `from_response`. -/
structure SeqeraResponse where
  workflows : List WorkflowFields
  totalSize : Int
  deriving DecidableEq, Repr

/-- The outcome of `SeqeraLog.from_response`, with the flag recording whether
the more-than-one-workflow warning was logged. -/
structure FromResponseResult where
  log : Option SeqeraLog
  warned : Bool
  deriving DecidableEq, Repr

/-- notifymodels.py `SeqeraLog.from_response`: totalSize 0 means no log;
exactly 1 constructs the log from `json["workflows"][0]["workflow"]`
(an IndexError if the list is empty); anything else logs a warning and
yields no log. -/
def SeqeraLog.from_response (r : SeqeraResponse) : Except Err FromResponseResult :=
  if r.totalSize = 0 then .ok { log := none, warned := false }
  else if r.totalSize = 1 then
    match r.workflows with
    | [] => .error .indexError
    | w :: _ => .ok { log := some (mkSeqeraLog w), warned := false }
  else .ok { log := none, warned := true }

/-- notifymodels.py `SeqeraLog.get_job_state`: map the platform status to the
local target state. -/
def SeqeraLog.get_job_state (l : SeqeraLog) : Option States :=
  match l.status with
  | .SUCCEEDED => some .SUCCEEDED
  | .FAILED => some .FAILED
  | .UNKNOWN => some .FAILED
  | .RUNNING => some .DEPLOYED
  | .SUBMITTED => none

/-- What `msg_queue.get(block=False, timeout=1)` produced in one producer
iteration (main.py kafka_producer): a message, an Empty, or a KafkaError. -/
inductive GetOutcome
  | gotMsg (m : BackendStatusMessage)
  | empty
  | kafkaError
  deriving DecidableEq, Repr

/-- Producer-side state: the KAFKA_PRODUCER_NOT_OK supervision flag, the
messages published to the status topic, and the seconds slept. -/
structure ProducerState where
  producerNotOk : Bool
  published : List BackendStatusMessage
  sleptSeconds : Nat
  deriving DecidableEq, Repr

/-- One iteration of main.py `kafka_producer`'s while-True loop. The
try/except wraps only `msg_queue.get`; `producer.send` runs in the else
clause, whose exceptions the except clauses of the same try statement do not
catch, so a KafkaError raised by the send propagates out of the loop with the
supervision flag untouched. -/
def kafka_producer_step (g : GetOutcome) (sendRaises : Bool) (s : ProducerState) :
    ProducerState × Option Err :=
  match g with
  | .empty => ({ s with sleptSeconds := s.sleptSeconds + 1 }, none)
  | .kafkaError => ({ s with producerNotOk := true }, none)
  | .gotMsg m =>
      if sendRaises then (s, some .kafkaError)
      else ({ s with published := s.published ++ [m] }, none)

/-- Modelled from the spec words "a parsed error_report keeps only its first
line": the first line of a message, for comparison with the source's
trim_error_message. -/
def firstLineSpec (m : List Char) : List Char := (splitOnNl m).headD []

/-- The Failed notification the error trigger enqueues for a job. -/
def failMsg (now : Int) (j : PolygenicScoreJob) : BackendStatusMessage :=
  { run_name := j.intp_id, utc_time := now, event := .FAILED,
    trace_name := j.trace_name, trace_exit := j.trace_exit }

/-- An overdue Requested row (created_at far in the past) used as C7's
failing input; its job's cleanup is a no-op so the error trigger itself
succeeds, isolating the persist step. -/
def c7Row1 : DBRow :=
  { id := "intp1"
    job := pickle_dumps
      { intp_id := "intp1"
        state := .REQUESTED
        handler :=
          { intp_id := "intp1"
            namespaceValue := "dev"
            work_bucket_existed_on_create := true
            results_bucket_existed_on_create := false
            helm_installed := false } }
    state := "Requested"
    created_at := 0 }

/-- An overdue Deployed row used as C7's failing input for the deployed
sweep. -/
def c7Row2 : DBRow :=
  { id := "intp2"
    job := pickle_dumps
      { intp_id := "intp2"
        state := .DEPLOYED
        handler :=
          { intp_id := "intp2"
            namespaceValue := "dev"
            work_bucket_existed_on_create := true
            results_bucket_existed_on_create := false
            helm_installed := false } }
    state := "Deployed"
    created_at := 0 }

/-- A recent Requested row the sweeps must not select. -/
def c7RowFresh : DBRow :=
  { id := "intp9"
    job := pickle_dumps
      { intp_id := "intp9"
        state := .REQUESTED
        handler :=
          { intp_id := "intp9"
            namespaceValue := "dev"
            work_bucket_existed_on_create := true
            results_bucket_existed_on_create := false
            helm_installed := false } }
    state := "Requested"
    created_at := 99999 }

/-- The cloud state used by the C7 evidence. -/
def c7CloudEx : Cloud :=
  { buckets := [], releases := [], helmInstallOk := true, helmUninstallOk := true }

/-! ## Helper lemmas -/

/-- Pickling then unpickling a job reproduces it field for field. -/
theorem pickle_loads_dumps (j : PolygenicScoreJob) : pickle_loads (pickle_dumps j) = j := rfl

/-! ## Claims -/

/-- C5 (code bug evidence): the TEXT value jobstates.py gives every state is
lower-case, so the state string bound by insert_job/update_job is rejected by
the title-case CHECK constraint of the jobs table for every job, contradicting
the claim that inserts and updates never violate the constraint. -/
theorem c5_lowercase_states_violate_check (j : PolygenicScoreJob) :
    checkConstraintOk j.state.value = false := by
  cases h : j.state <;> decide

/-- C9: a serialised notification carries exactly run_name, utc_time, event,
trace_name, trace_exit when the event is Failed, and exactly run_name,
utc_time, event otherwise. -/
theorem c9_notification_shape (m : BackendStatusMessage) :
    (serialize_model m).map Prod.fst =
      if m.event = States.FAILED then
        ["run_name", "utc_time", "event", "trace_name", "trace_exit"]
      else ["run_name", "utc_time", "event"] := by
  rcases m with ⟨rn, t, e, tn, te⟩
  cases e <;> simp [serialize_model]

/-- C6 counterexample: in the producer loop a bus error raised while
publishing a drained message escapes the loop uncaught and does not set the
producer-not-ok supervision flag, contrary to the claim. -/
theorem c6_counterexample :
    kafka_producer_step (.gotMsg { run_name := "intp1", utc_time := 0, event := .DEPLOYED })
        true { producerNotOk := false, published := [], sleptSeconds := 0 } =
      ({ producerNotOk := false, published := [], sleptSeconds := 0 }, some .kafkaError) := by
  rfl

/-- C6 amended: on an empty queue the producer loop sleeps one second and
continues; a bus error raised by the queue-get is caught, logged critically
and sets producer-not-ok; a bus error raised while publishing (in the else
clause of the try) propagates uncaught and leaves the flag unchanged; a
successful iteration publishes the drained message. -/
theorem c6_producer_loop (s : ProducerState) (m : BackendStatusMessage) (b : Bool) :
    kafka_producer_step .empty b s = ({ s with sleptSeconds := s.sleptSeconds + 1 }, none) ∧
    kafka_producer_step .kafkaError b s = ({ s with producerNotOk := true }, none) ∧
    kafka_producer_step (.gotMsg m) true s = (s, some .kafkaError) ∧
    kafka_producer_step (.gotMsg m) false s =
      ({ s with published := s.published ++ [m] }, none) :=
  ⟨rfl, rfl, rfl, rfl⟩

/-- C1: the transition table is exactly the claimed one (create:
Requested→Created, deploy: Created→Deployed, succeed: Deployed→Succeeded,
error: Requested|Created|Deployed→Failed), the outcome is a function of the
(trigger, state) pair, and every other pair makes the trigger call raise a
MachineError — an error kind distinct from all others — leaving the whole
machine context unchanged. -/
theorem c1_transition_totality :
    (∀ (t : Trigger) (s : States),
      (transFor t s).map Transition.dest =
        (match t, s with
          | .create, .REQUESTED => some .CREATED
          | .deploy, .CREATED => some .DEPLOYED
          | .succeed, .DEPLOYED => some .SUCCEEDED
          | .error, .REQUESTED => some .FAILED
          | .error, .CREATED => some .FAILED
          | .error, .DEPLOYED => some .FAILED
          | _, _ => none)) ∧
    (∀ (fuel : Nat) (t : Trigger) (kw : Kwargs) (ctx : Ctx),
      transFor t ctx.job.state = none →
        fire (fuel + 1) t kw ctx = (ctx, some .machineError)) := by
  constructor
  · intro t s
    cases t <;> cases s <;> rfl
  · intro fuel t kw ctx h
    simp [fire, h]

/-- C1 witness: on a Succeeded machine the error trigger is illegal, raises a
MachineError, and changes nothing. -/
theorem c1_witness :
    fire 1 .error {}
        { job := { intp_id := "intp1", state := .SUCCEEDED,
                   handler := mkGoogleResourceHandler "intp1" "dev" },
          cloud := { buckets := [], releases := [], helmInstallOk := true,
                     helmUninstallOk := true },
          sent := [], now := 0 } =
      ({ job := { intp_id := "intp1", state := .SUCCEEDED,
                  handler := mkGoogleResourceHandler "intp1" "dev" },
         cloud := { buckets := [], releases := [], helmInstallOk := true,
                    helmUninstallOk := true },
         sent := [], now := 0 }, some .machineError) :=
  c1_transition_totality.2 0 .error {} _ (by decide)

/-- The work and results bucket names of a handler always differ (their
suffixes have different lengths). -/
theorem work_bucket_ne_results_bucket (h : GoogleResourceHandler) :
    work_bucket h ≠ results_bucket h := by
  intro hEq
  have hLen := congrArg String.length hEq
  rw [work_bucket, results_bucket, String.length_append, String.length_append,
    show ("-work".length = 5) from rfl, show ("-results".length = 8) from rfl] at hLen
  omega

/-- C2 counterexample: with both buckets fresh but the chart install failing,
the create trigger still lands the machine in Created (the ValueError from
helm_install is caught inside create_resources), contradicting the claim that
a failing provision cannot end in Created. -/
theorem c2_counterexample :
    (fire 3 .create { job_model := some { pipeline_param := { id := "INTP1" } }, queue := true }
      { job := mkPolygenicScoreJob "INTP1" "dev",
        cloud := { buckets := [], releases := [], helmInstallOk := false,
                   helmUninstallOk := true },
        sent := [], now := 0 }) =
    ({ job := { intp_id := "INTP1", state := .CREATED,
                handler := { intp_id := "intp1", namespaceValue := "dev",
                             work_bucket_existed_on_create := false,
                             results_bucket_existed_on_create := false,
                             helm_installed := false } },
       cloud := { buckets := ["dev-intp1-results", "dev-intp1-work"], releases := [],
                  helmInstallOk := false, helmUninstallOk := true },
       sent := [], now := 0 }, none) := by
  decide

/-- C2 amended: when a target bucket already exists at creation time the
prepare hook raises, the machine never enters Created and ends Failed via the
exception policy (the call surfaces the MachineError of the recovery path);
when instead the chart install fails, the ValueError is caught inside
create_resources, the handler records helm-not-installed, and the machine
does enter Created. -/
theorem c2_provision_failures (ctx : Ctx) (jm : JobRequest) (kw : Kwargs)
    (hjm : kw.job_model = some jm) (hst : ctx.job.state = .REQUESTED) :
    (work_bucket ctx.job.handler ∈ ctx.cloud.buckets →
      fire 3 .create kw ctx =
        ({ ctx with job := { ctx.job with
              state := .FAILED,
              handler := { ctx.job.handler with work_bucket_existed_on_create := true } } },
          some .machineError)) ∧
    (work_bucket ctx.job.handler ∉ ctx.cloud.buckets →
      results_bucket ctx.job.handler ∉ ctx.cloud.buckets →
      ctx.cloud.helmInstallOk = false →
      fire 3 .create kw ctx =
        ({ ctx with
            job := { ctx.job with
              state := .CREATED,
              handler := { ctx.job.handler with helm_installed := false } },
            cloud := { ctx.cloud with
              buckets := results_bucket ctx.job.handler ::
                work_bucket ctx.job.handler :: ctx.cloud.buckets } },
          none)) ∧
    (work_bucket ctx.job.handler ∉ ctx.cloud.buckets →
      results_bucket ctx.job.handler ∈ ctx.cloud.buckets →
      fire 3 .create kw ctx =
        ({ ctx with
            job := { ctx.job with
              state := .FAILED,
              handler := { ctx.job.handler with
                results_bucket_existed_on_create := true } },
            cloud := { ctx.cloud with
              buckets := work_bucket ctx.job.handler :: ctx.cloud.buckets } },
          some .machineError)) := by
  rcases ctx with ⟨⟨iid, st, hdl, tn, te⟩, ⟨bks, rls, hio, huo⟩, sent, now⟩
  rcases kw with ⟨kwjm, kwq⟩
  simp only at hjm hst
  subst hjm; subst hst
  refine ⟨?_, ?_, ?_⟩
  · intro hmem
    simp [fire, transFor, transitions, runHooks, runHook, hook_create_resources,
      handler_create_resources, make_buckets, make_work_bucket, hook_notify,
      hook_destroy_resources, hmem]
  · intro hw hr hio0
    simp only at hio0
    subst hio0
    have hr' : results_bucket hdl ∉ work_bucket hdl :: bks := by
      intro hmem
      rcases List.mem_cons.mp hmem with hEq | hIn
      · exact work_bucket_ne_results_bucket hdl hEq.symm
      · exact hr hIn
    simp [fire, transFor, transitions, runHooks, runHook, hook_create_resources,
      handler_create_resources, make_buckets, make_work_bucket, make_results_bucket,
      helm_install, hw, hr']
  · intro hw hr
    have hr' : results_bucket hdl ∈ work_bucket hdl :: bks := List.mem_cons_of_mem _ hr
    simp [fire, transFor, transitions, runHooks, runHook, hook_create_resources,
      handler_create_resources, make_buckets, make_work_bucket, make_results_bucket,
      hook_notify, hook_destroy_resources, hw, hr']

/-- C2 witness: all three branches of the amended statement at concrete inputs. -/
theorem c2_witness :
    (fire 3 .create { job_model := some { pipeline_param := { id := "INTP2" } }, queue := true }
      { job := mkPolygenicScoreJob "INTP2" "dev",
        cloud := { buckets := ["dev-intp2-work"], releases := [], helmInstallOk := true,
                   helmUninstallOk := true },
        sent := [], now := 0 }).1.job.state = States.FAILED ∧
    (fire 3 .create { job_model := some { pipeline_param := { id := "INTP2" } }, queue := true }
      { job := mkPolygenicScoreJob "INTP2" "dev",
        cloud := { buckets := [], releases := [], helmInstallOk := false,
                   helmUninstallOk := true },
        sent := [], now := 0 }).1.job.state = States.CREATED ∧
    (fire 3 .create { job_model := some { pipeline_param := { id := "INTP2" } }, queue := true }
      { job := mkPolygenicScoreJob "INTP2" "dev",
        cloud := { buckets := ["dev-intp2-results"], releases := [], helmInstallOk := true,
                   helmUninstallOk := true },
        sent := [], now := 0 }).1.job.state = States.FAILED := by
  refine ⟨?_, ?_, ?_⟩
  · rw [(c2_provision_failures _ { pipeline_param := { id := "INTP2" } } _ rfl rfl).1
      (by decide)]
  · rw [(c2_provision_failures _ { pipeline_param := { id := "INTP2" } } _ rfl rfl).2.1
      (by decide) (by decide) rfl]
  · rw [(c2_provision_failures _ { pipeline_param := { id := "INTP2" } } _ rfl rfl).2.2
      (by decide) (by decide)]

/-- C3 (code bug evidence): destroy_resources in the Failed state deletes a
results bucket that was flagged existed-on-create (the flag is recorded but
never consulted), contradicting the never-delete-a-flagged-bucket rule. -/
theorem c3_flagged_results_bucket_deleted :
    handler_destroy_resources
      { buckets := ["dev-intp3-work", "dev-intp3-results"], releases := [],
        helmInstallOk := true, helmUninstallOk := true }
      { intp_id := "intp3", namespaceValue := "dev",
        work_bucket_existed_on_create := false,
        results_bucket_existed_on_create := true, helm_installed := false }
      .FAILED =
    ({ buckets := [], releases := [], helmInstallOk := true,
       helmUninstallOk := true }, none) := by
  decide

/-- C4 (code bug evidence): on a launch whose derived work bucket already
exists, the job does transition Requested → Failed and the pre-existing
bucket survives, but no Failed notification is ever put on the queue: the
recovery path fires the error trigger without the queue kwarg, so the notify
hook raises TypeError and the whole call surfaces a MachineError. -/
theorem c4_no_notification_on_preexisting_bucket :
    fire 3 .create { job_model := some { pipeline_param := { id := "INTP1" } }, queue := true }
      { job := mkPolygenicScoreJob "INTP1" "dev",
        cloud := { buckets := ["dev-intp1-work"], releases := [], helmInstallOk := true,
                   helmUninstallOk := true },
        sent := [], now := 0 } =
      ({ job := { intp_id := "INTP1", state := .FAILED,
                  handler := { intp_id := "intp1", namespaceValue := "dev",
                               work_bucket_existed_on_create := true,
                               results_bucket_existed_on_create := false,
                               helm_installed := false } },
         cloud := { buckets := ["dev-intp1-work"], releases := [], helmInstallOk := true,
                    helmUninstallOk := true },
         sent := [], now := 0 }, some .machineError) := by
  decide

/-- C10 counterexample: a workflow whose errorReport starts with a newline.
Its first line is empty, but the parsed log keeps "second": the validator
strips whitespace before splitting, so it does not keep the first line of the
report. -/
theorem c10_counterexample :
    SeqeraLog.from_response
        { workflows :=
            [{ runName := "intervene-dev-intp1"
               start := 0
               dateCreated := 0
               status := .FAILED
               exitStatus := some 12
               errorReport := some ('\n' :: "second".data) }]
          totalSize := 1 } =
      .ok { log := some
              { runName := "intervene-dev-intp1"
                start := 0
                dateCreated := 0
                status := .FAILED
                exitStatus := some 12
                errorReport := some "second".data }
            warned := false } ∧
    firstLineSpec ('\n' :: "second".data) = [] ∧
    ("second".data : List Char) ≠ [] := by
  refine ⟨by rfl, by decide, by decide⟩

/-- C10 amended: for every platform API response, parsing yields no log when
totalSize is 0, a RemoteLog built from the first workflow entry when
totalSize is 1 (an IndexError when that list is empty), and — depending on
totalSize alone — no log with a warning for any other totalSize (in
particular above 1, even when the list holds one workflow); the parsed
status maps Succeeded→Succeeded, Failed|Unknown→Failed, Running→Deployed and
Submitted→none; a parsed error_report is stripped of leading and trailing
whitespace and keeps only the first line of the stripped text. -/
theorem c10_response_parsing :
    (∀ r : SeqeraResponse, r.totalSize = 0 →
      SeqeraLog.from_response r = .ok { log := none, warned := false }) ∧
    (∀ (r : SeqeraResponse) (w : WorkflowFields) (ws : List WorkflowFields),
      r.totalSize = 1 → r.workflows = w :: ws →
      SeqeraLog.from_response r = .ok { log := some (mkSeqeraLog w), warned := false }) ∧
    (∀ r : SeqeraResponse, r.totalSize = 1 → r.workflows = [] →
      SeqeraLog.from_response r = .error .indexError) ∧
    (∀ r : SeqeraResponse, r.totalSize ≠ 0 → r.totalSize ≠ 1 →
      SeqeraLog.from_response r = .ok { log := none, warned := true }) ∧
    (∀ l : SeqeraLog,
      l.get_job_state =
        (match l.status with
          | .SUCCEEDED => some States.SUCCEEDED
          | .FAILED => some States.FAILED
          | .UNKNOWN => some States.FAILED
          | .RUNNING => some States.DEPLOYED
          | .SUBMITTED => none)) ∧
    (∀ m : List Char, trim_error_message (some m) = some (firstLineSpec (pyStrip m))) := by
  refine ⟨?_, ?_, ?_, ?_, ?_, ?_⟩
  · intro r h0
    simp [SeqeraLog.from_response, h0]
  · intro r w ws h1 h2
    rw [SeqeraLog.from_response, if_neg (by omega), if_pos h1, h2]
  · intro r h1 h2
    rw [SeqeraLog.from_response, if_neg (by omega), if_pos h1, h2]
  · intro r h0 h1
    rw [SeqeraLog.from_response, if_neg h0, if_neg h1]
  · intro l
    rcases l with ⟨rn, st, dc, status, ex, er⟩
    cases status <;> rfl
  · intro m
    rfl

/-- C10 witness: the amended statement at concrete responses — including an
over-match (totalSize 2 with a single workflow entry) that warns and skips on
totalSize alone — plus the status map and the trimming. -/
theorem c10_witness :
    SeqeraLog.from_response { workflows := [], totalSize := 0 } =
      .ok { log := none, warned := false } ∧
    SeqeraLog.from_response
        { workflows := [{ runName := "a", start := 0, dateCreated := 0, status := .RUNNING }]
          totalSize := 1 } =
      .ok { log := some (mkSeqeraLog
              { runName := "a", start := 0, dateCreated := 0, status := .RUNNING })
            warned := false } ∧
    SeqeraLog.from_response
        { workflows := [{ runName := "a", start := 0, dateCreated := 0, status := .RUNNING }]
          totalSize := 2 } =
      .ok { log := none, warned := true } ∧
    SeqeraLog.from_response { workflows := [], totalSize := 1 } = .error .indexError ∧
    SeqeraLog.get_job_state
        { runName := "a", start := 0, dateCreated := 0, status := .RUNNING,
          exitStatus := none, errorReport := none } =
      some States.DEPLOYED ∧
    trim_error_message (some (' ' :: "x".data)) =
      some (firstLineSpec (pyStrip (' ' :: "x".data))) :=
  ⟨c10_response_parsing.1 { workflows := [], totalSize := 0 } rfl,
   c10_response_parsing.2.1 _ _ [] rfl rfl,
   c10_response_parsing.2.2.2.1 _ (by decide) (by decide),
   c10_response_parsing.2.2.1 { workflows := [], totalSize := 1 } rfl rfl,
   c10_response_parsing.2.2.2.2.1 _,
   c10_response_parsing.2.2.2.2.2 _⟩

/-- C8 (code bug evidence): the claimed round trip can never happen — for
every store and every job, insert_job raises (a duplicate id, or the state
binding rejected: the bound value is the enum's lower-case string, which the
title-case CHECK refuses), and update_job raises whenever a row with the
job's id exists, so no load-after-insert or load-after-update ever yields a
machine. The pickle blob itself round-trips bit for bit, so the state binding
is the sole obstacle to the claim's intent. -/
theorem c8_roundtrip_blocked (now : Int) (db : List DBRow) (j : PolygenicScoreJob)
    (r : DBRow) :
    insert_job now db j = .error .integrityError ∧
    update_job ({ r with id := j.intp_id } :: db) j = .error .integrityError ∧
    pickle_loads (pickle_dumps j) = j := by
  have hchk : checkConstraintOk j.state.value = false := by
    cases j.state <;> decide
  refine ⟨?_, ?_, rfl⟩
  · rw [insert_job]
    by_cases h : db.any (fun x => x.id == j.intp_id) = true
    · rw [if_pos h]
    · rw [if_neg h, if_neg (by simp [hchk])]
  · rw [update_job, if_pos (by simp), if_neg (by simp [hchk])]

/-- C7 (code bug evidence): on a store with an overdue Requested row (and a
recent row the selection correctly skips) the sweep selects and loads the
overdue job and fires the error trigger with the notify queue — one Failed
notification is enqueued — but the persist step update_job raises on the
state binding, the IntegrityError propagates out of the sweep, and the row is
never set to Failed; the deployed sweep fails the same way on an overdue
Deployed row. -/
theorem c7_sweep_never_persists :
    timeout_jobs 100000 3600 [c7Row1, c7RowFresh] c7CloudEx [] =
      ([c7Row1, c7RowFresh], c7CloudEx,
        [failMsg 100000 (pickle_loads c7Row1.job)], some .integrityError) ∧
    timeout_deployed_jobs 100000 3600 [c7Row2, c7RowFresh] c7CloudEx [] =
      ([c7Row2, c7RowFresh], c7CloudEx,
        [failMsg 100000 (pickle_loads c7Row2.job)], some .integrityError) := by
  constructor <;> decide

end Hattivatti
